import Mathlib

/-!
Verification of the ONVIF device adapter (`src/lib/onvif-device.js`).

The file shallowly embeds the observable behaviour of `OnvifDevice`:
the property projection performed by the constructor, the snapshot
polling loop installed with `setInterval`, and the `performAction`
dispatcher. JavaScript values that can be `null` are modelled with an
explicit `JSValue.null` constructor; `parseInt(s, 10)` is modelled by
`parseInt10`, which returns `JSValue.nan` when no digits are found;
promises settle as `Except` values supplied by the environment.
-/

namespace OnvifAdapter

/-- A JavaScript value as stored in a property cache: `null`, a string,
a finite number (profiles only carry integer-valued numbers), or `NaN`
(the result of a failed `parseInt`). -/
inductive JSValue
  | null
  | str (s : String)
  | num (n : Int)
  | nan
deriving DecidableEq, Repr

/-- Maximal prefix of decimal digits, as consumed by `parseInt(-, 10)`. -/
def takeDigits : List Char → List Char
  | [] => []
  | c :: cs => if c.isDigit then c :: takeDigits cs else []

/-- Decimal value of a digit list. -/
def digitsToNat (cs : List Char) : Nat :=
  cs.foldl (fun a c => a * 10 + (c.toNat - 48)) 0

/-- Drop leading whitespace, as `parseInt` does before reading digits. -/
def skipWhitespace : List Char → List Char
  | [] => []
  | c :: cs =>
      if c = ' ' ∨ c = '\t' ∨ c = '\n' ∨ c = '\r' then skipWhitespace cs
      else c :: cs

/-- JavaScript `parseInt(s, 10)`: skip leading whitespace, read an
optional sign, then the maximal run of decimal digits; `NaN` when no
digit is found, otherwise the integer the digits denote. -/
def parseInt10 (s : String) : JSValue :=
  match skipWhitespace s.data with
  | '-' :: rest =>
      let ds := takeDigits rest
      if ds.isEmpty then JSValue.nan else JSValue.num (-(digitsToNat ds : Int))
  | '+' :: rest =>
      let ds := takeDigits rest
      if ds.isEmpty then JSValue.nan else JSValue.num (digitsToNat ds : Int)
  | cs =>
      let ds := takeDigits cs
      if ds.isEmpty then JSValue.nan else JSValue.num (digitsToNat ds : Int)

/-- The `profile.VideoEncoderConfiguration.Resolution` block. -/
structure Resolution where
  Width : Int
  Height : Int
deriving DecidableEq, Repr

/-- The `profile.VideoEncoderConfiguration.RateControl` block. -/
structure RateControl where
  BitrateLimit : String
  FrameRateLimit : String
deriving DecidableEq, Repr

/-- The `profile.VideoEncoderConfiguration` block. -/
structure VideoEncoderConfiguration where
  Encoding : String
  Resolution : Resolution
  RateControl : RateControl
  Quality : String
deriving DecidableEq, Repr

/-- The `profile.AudioEncoderConfiguration` block (the optional audio block). -/
structure AudioEncoderConfiguration where
  Encoding : String
  Bitrate : String
  SampleRate : String
deriving DecidableEq, Repr

/-- The `profile.StreamUri` block. -/
structure StreamUri where
  Uri : String
deriving DecidableEq, Repr

/-- The slice of `camera.getDefaultProfile()` the constructor reads. -/
structure Profile where
  StreamUri : StreamUri
  VideoEncoderConfiguration : VideoEncoderConfiguration
  AudioEncoderConfiguration : Option AudioEncoderConfiguration
deriving DecidableEq, Repr

/-- An `OnvifProperty` as constructed by the device: name, display
metadata and the cached value. -/
structure OnvifProperty where
  name : String
  label : String
  type : String
  readOnly : Bool
  value : JSValue
deriving DecidableEq, Repr

/-- The property map built by the `OnvifDevice` constructor, in
registration order: the seven unconditional properties, then the three
audio properties exactly when `profile.AudioEncoderConfiguration` is
present. -/
def buildProperties (profile : Profile) : List (String × OnvifProperty) :=
  [("streamUrl",
    ⟨"streamUrl", "Stream URL", "string", true,
      JSValue.str profile.StreamUri.Uri⟩),
   ("videoEncoding",
    ⟨"videoEncoding", "Video Encoding", "string", true,
      JSValue.str profile.VideoEncoderConfiguration.Encoding⟩),
   ("videoResolution",
    ⟨"videoResolution", "Video Resolution", "string", true,
      JSValue.str (toString profile.VideoEncoderConfiguration.Resolution.Width
        ++ "x" ++ toString profile.VideoEncoderConfiguration.Resolution.Height)⟩),
   ("videoBitRate",
    ⟨"videoBitRate", "Video Bit Rate", "number", true,
      parseInt10 profile.VideoEncoderConfiguration.RateControl.BitrateLimit⟩),
   ("videoFrameRate",
    ⟨"videoFrameRate", "Video Frame Rate", "number", true,
      parseInt10 profile.VideoEncoderConfiguration.RateControl.FrameRateLimit⟩),
   ("videoQuality",
    ⟨"videoQuality", "Video Quality", "number", true,
      parseInt10 profile.VideoEncoderConfiguration.Quality⟩),
   ("snapshotMimeType",
    ⟨"snapshotMimeType", "Snapshot MIME Type", "string", true, JSValue.null⟩),
   ("snapshot",
    ⟨"snapshot", "Snapshot", "binary", true, JSValue.null⟩)]
  ++ match profile.AudioEncoderConfiguration with
     | some audio =>
       [("audioEncoding",
         ⟨"audioEncoding", "Audio Encoding", "string", true,
           JSValue.str audio.Encoding⟩),
        ("audioBitRate",
         ⟨"audioBitRate", "Audio Bit Rate", "number", true,
           parseInt10 audio.Bitrate⟩),
        ("audioSampleRate",
         ⟨"audioSampleRate", "Audio Sample Rate", "number", true,
           parseInt10 audio.SampleRate⟩)]
     | none => []

/-- The standard base64 alphabet, as used by `Buffer.toString('base64')`. -/
def base64Chars : List Char :=
  "ABCDEFGHIJKLMNOPQRSTUVWXYZabcdefghijklmnopqrstuvwxyz0123456789+/".data

/-- Character at index `n` of the base64 alphabet. -/
def b64Char (n : Nat) : Char := base64Chars.getD n 'A'

/-- Node `Buffer.toString('base64')`: standard base64 with `=` padding,
three input bytes per four output characters. -/
def base64Encode : List Nat → String
  | [] => ""
  | [b1] =>
      ⟨[b64Char (b1 / 4), b64Char (b1 % 4 * 16), '=', '=']⟩
  | [b1, b2] =>
      ⟨[b64Char (b1 / 4), b64Char (b1 % 4 * 16 + b2 / 16),
        b64Char (b2 % 16 * 4), '=']⟩
  | b1 :: b2 :: b3 :: rest =>
      (⟨[b64Char (b1 / 4), b64Char (b1 % 4 * 16 + b2 / 16),
         b64Char (b2 % 16 * 4 + b3 / 64), b64Char (b3 % 64)]⟩ : String)
      ++ base64Encode rest

/-- The dynamic state the `setInterval` callback touches: the two
poller-written property caches, the stream of
`notifyPropertyChanged` calls (by property name, in order), and the
count of `console.error` logs from the `catch` handler. -/
structure SnapshotState where
  snapshotMimeType : JSValue
  snapshot : JSValue
  notifications : List String
  errorsLogged : Nat
deriving DecidableEq, Repr

/-- The state right after construction: both dynamic properties `null`,
nothing notified, nothing logged. -/
def initialSnapshotState : SnapshotState :=
  ⟨JSValue.null, JSValue.null, [], 0⟩

/-- One snapshot the camera delivers: MIME type and image bytes.
`this.snapshot()` resolves to this pair; a tick whose fetch fails is
modelled by `none` below. -/
structure SnapshotResult where
  mimeType : String
  buffer : List Nat
deriving DecidableEq, Repr

/-- One tick of the `setInterval` callback. On a fulfilled fetch: set
the MIME-type property and notify only when its cached value is still
`null`, then unconditionally overwrite the snapshot property with the
base64 encoding of the bytes and notify. On a rejected fetch: log the
error, touch nothing else. -/
def snapshotTick (st : SnapshotState) (result : Option SnapshotResult) :
    SnapshotState :=
  match result with
  | some res =>
      let st1 :=
        if st.snapshotMimeType = JSValue.null then
          { st with snapshotMimeType := JSValue.str res.mimeType,
                    notifications := st.notifications ++ ["snapshotMimeType"] }
        else st
      { st1 with snapshot := JSValue.str (base64Encode res.buffer),
                 notifications := st1.notifications ++ ["snapshot"] }
  | none =>
      { st with errorsLogged := st.errorsLogged + 1 }

/-- Run the poller over a sequence of tick outcomes. -/
def runTicks (st : SnapshotState) : List (Option SnapshotResult) →
    SnapshotState
  | [] => st
  | r :: rs => runTicks (snapshotTick st r) rs

/-- Input of a `move` action: the three required speeds and the
optional timeout (`none` when absent, in which case the code passes
`null` to the camera). -/
structure MoveInput where
  speedX : Rat
  speedY : Rat
  speedZ : Rat
  timeout : Option Rat
deriving DecidableEq, Repr

/-- An action as handed to `performAction`: its name and its input. -/
structure Action where
  name : String
  input : MoveInput
deriving DecidableEq, Repr

/-- Observable calls `performAction` makes, in order: the action
lifecycle calls on the host runtime, the two camera PTZ calls (with the
arguments delegated), and the `console.error` log in a catch handler. -/
inductive Event
  | actionStart
  | actionFinish
  | setStatusError
  | actionNotify
  | cameraContinuousMove (x y z : Rat) (timeout : Option Rat)
  | cameraStop
  | logError
deriving DecidableEq, Repr

/-- Whether an event is a camera (PTZ) call. -/
def Event.isCameraCall : Event → Bool
  | Event.cameraContinuousMove _ _ _ _ => true
  | Event.cameraStop => true
  | _ => false

/-- How the promise `performAction` returns settles. -/
inductive Outcome
  | resolved
  | rejected (e : String)
deriving DecidableEq, Repr

/-- The `performAction` dispatcher, given how the delegated PTZ promises would settle
(`moveResult` for `camera.ptz.continuousMove`, `stopResult` for
`camera.ptz.stop`): returns the ordered trace of observable calls and
the settlement of the promise `performAction` returns. Mirrors the
`switch` on `action.name` with its `move`, `stop` and `default` cases. -/
def performAction (action : Action) (moveResult : Except String Unit)
    (stopResult : Except String Unit) : List Event × Outcome :=
  if action.name = "move" then
    let delegated :=
      Event.cameraContinuousMove action.input.speedX action.input.speedY
        action.input.speedZ action.input.timeout
    match moveResult with
    | Except.ok _ =>
        ([Event.actionStart, delegated, Event.actionFinish],
         Outcome.resolved)
    | Except.error _ =>
        ([Event.actionStart, delegated, Event.logError,
          Event.setStatusError, Event.actionNotify], Outcome.resolved)
  else if action.name = "stop" then
    match stopResult with
    | Except.ok _ =>
        ([Event.actionStart, Event.cameraStop, Event.actionFinish],
         Outcome.resolved)
    | Except.error _ =>
        ([Event.actionStart, Event.cameraStop, Event.logError,
          Event.setStatusError, Event.actionNotify], Outcome.resolved)
  else
    ([Event.setStatusError, Event.actionNotify], Outcome.resolved)

/-- Numeric constraints of one field of the `move` action's registered
input descriptor. -/
structure NumberSchema where
  minimum : Option Rat
  maximum : Option Rat
  unit : Option String
deriving DecidableEq, Repr

/-- The input descriptor `addAction('move', ...)` registers. -/
structure MoveInputSchema where
  required : List String
  speedX : NumberSchema
  speedY : NumberSchema
  speedZ : NumberSchema
  timeout : NumberSchema
deriving DecidableEq, Repr

/-- The `move` action's input descriptor exactly as registered in the
constructor: the three speeds required and constrained to
`[-1.0, 1.0]`, the timeout optional with minimum `0` in seconds. -/
def moveActionSchema : MoveInputSchema :=
  ⟨["speedX", "speedY", "speedZ"],
   ⟨some (-1), some 1, none⟩,
   ⟨some (-1), some 1, none⟩,
   ⟨some (-1), some 1, none⟩,
   ⟨some 0, none, some "seconds"⟩⟩

/-- The profile of the spec's worked example: H264, 1920x1080,
bitrate limit "4096", frame-rate limit "30", quality "5.0", no audio
block. -/
def exampleProfile : Profile :=
  ⟨⟨"rtsp://camera.local/stream"⟩,
   ⟨"H264", ⟨1920, 1080⟩, ⟨"4096", "30"⟩, "5.0"⟩,
   none⟩

/-! ## Theorems -/

/-- C1: the three audio properties are registered exactly when the
profile's audio encoder configuration block is present — each of
`audioEncoding`, `audioBitRate`, `audioSampleRate` is in the property
map iff the block is there, so the audio set is all-or-nothing, never
partially populated. -/
theorem audio_properties_all_or_none (p : Profile) :
    ((buildProperties p).lookup "audioEncoding").isSome
        = p.AudioEncoderConfiguration.isSome
    ∧ ((buildProperties p).lookup "audioBitRate").isSome
        = p.AudioEncoderConfiguration.isSome
    ∧ ((buildProperties p).lookup "audioSampleRate").isSome
        = p.AudioEncoderConfiguration.isSome := by
  cases h : p.AudioEncoderConfiguration <;>
    simp [buildProperties, h, List.lookup]

/-- C2: the snapshot MIME-type property is written at most once by the
poller — once some successful fetch has set it to a string, no later
sequence of ticks changes it, even if a later fetch reports a
different MIME type. -/
theorem snapshot_mime_written_at_most_once (st : SnapshotState)
    (rs : List (Option SnapshotResult)) (m : String)
    (h : st.snapshotMimeType = JSValue.str m) :
    (runTicks st rs).snapshotMimeType = JSValue.str m := by
  induction rs generalizing st with
  | nil => simpa [runTicks] using h
  | cons r rs ih =>
      cases r with
      | none => exact ih _ (by simp [snapshotTick, h])
      | some res => exact ih _ (by simp [snapshotTick, h])

/-- Witness for C2: a state whose MIME type was set to `image/jpeg`
still holds `image/jpeg` after a tick that fetches `image/png`. -/
theorem snapshot_mime_written_at_most_once_witness :
    (runTicks ⟨JSValue.str "image/jpeg", JSValue.null, [], 0⟩
        [some ⟨"image/png", [1, 2, 3]⟩]).snapshotMimeType
      = JSValue.str "image/jpeg" :=
  snapshot_mime_written_at_most_once
    ⟨JSValue.str "image/jpeg", JSValue.null, [], 0⟩
    [some ⟨"image/png", [1, 2, 3]⟩] "image/jpeg" rfl

/-- C3: every tick whose fetch succeeds overwrites the snapshot
property with the base64 encoding of the fetched bytes and issues
exactly one `snapshot` change notification, whatever the previous
cached value was (no deduplication). -/
theorem snapshot_overwritten_every_success (st : SnapshotState)
    (res : SnapshotResult) :
    (snapshotTick st (some res)).snapshot
        = JSValue.str (base64Encode res.buffer)
    ∧ (snapshotTick st (some res)).notifications.count "snapshot"
        = st.notifications.count "snapshot" + 1 := by
  by_cases h : st.snapshotMimeType = JSValue.null <;>
    simp [snapshotTick, h, List.count_append]

/-- C9: a tick whose fetch fails only logs the error: both property
caches and the notification stream are exactly as before, and no
failure escapes the catch handler. -/
theorem snapshot_failure_changes_nothing (st : SnapshotState) :
    (snapshotTick st none).snapshotMimeType = st.snapshotMimeType
    ∧ (snapshotTick st none).snapshot = st.snapshot
    ∧ (snapshotTick st none).notifications = st.notifications
    ∧ (snapshotTick st none).errorsLogged = st.errorsLogged + 1 :=
  ⟨rfl, rfl, rfl, rfl⟩

/-- C4: dispatching any action whose name is neither `move` nor `stop`
hits the default case: status set to error, exactly one action
notification, and no camera call at all. -/
theorem unknown_action_immediate_error (a : Action)
    (mr sr : Except String Unit)
    (h1 : a.name ≠ "move") (h2 : a.name ≠ "stop") :
    performAction a mr sr
        = ([Event.setStatusError, Event.actionNotify], Outcome.resolved)
    ∧ (performAction a mr sr).1.count Event.actionNotify = 1
    ∧ (performAction a mr sr).1.countP Event.isCameraCall = 0 := by
  have hp : performAction a mr sr
      = ([Event.setStatusError, Event.actionNotify], Outcome.resolved) := by
    simp [performAction, h1, h2]
  exact ⟨hp, by rw [hp]; decide, by rw [hp]; decide⟩

/-- Witness for C4: the action named `foo` is marked as an error with
one notification and no camera call. -/
theorem unknown_action_immediate_error_witness :
    performAction ⟨"foo", ⟨0, 0, 0, none⟩⟩ (Except.ok ()) (Except.ok ())
        = ([Event.setStatusError, Event.actionNotify], Outcome.resolved)
    ∧ (performAction ⟨"foo", ⟨0, 0, 0, none⟩⟩ (Except.ok ())
        (Except.ok ())).1.count Event.actionNotify = 1
    ∧ (performAction ⟨"foo", ⟨0, 0, 0, none⟩⟩ (Except.ok ())
        (Except.ok ())).1.countP Event.isCameraCall = 0 :=
  unknown_action_immediate_error ⟨"foo", ⟨0, 0, 0, none⟩⟩
    (Except.ok ()) (Except.ok ()) (by decide) (by decide)

/-- C5: a `move` action whose delegated `continuousMove` call fulfils
runs `action.start()`, the single camera call, then `action.finish()`,
and issues no error status and no error notification. -/
theorem move_success_lifecycle (input : MoveInput)
    (sr : Except String Unit) :
    performAction ⟨"move", input⟩ (Except.ok ()) sr
        = ([Event.actionStart,
            Event.cameraContinuousMove input.speedX input.speedY
              input.speedZ input.timeout,
            Event.actionFinish], Outcome.resolved)
    ∧ (performAction ⟨"move", input⟩ (Except.ok ()) sr).1.count
        Event.actionNotify = 0
    ∧ (performAction ⟨"move", input⟩ (Except.ok ()) sr).1.count
        Event.setStatusError = 0 := by
  refine ⟨rfl, ?_, ?_⟩ <;> rfl

/-- C6: a `move` or `stop` action whose delegated PTZ promise rejects
logs the failure, sets the status to error, and issues exactly one
notification; the camera is called exactly once (no retry) and the
returned promise still resolves. -/
theorem ptz_failure_single_error_notification (input : MoveInput)
    (e1 e2 : String) (mr sr : Except String Unit) :
    (performAction ⟨"move", input⟩ (Except.error e1) sr
        = ([Event.actionStart,
            Event.cameraContinuousMove input.speedX input.speedY
              input.speedZ input.timeout,
            Event.logError, Event.setStatusError, Event.actionNotify],
           Outcome.resolved)
      ∧ (performAction ⟨"move", input⟩ (Except.error e1) sr).1.count
          Event.actionNotify = 1
      ∧ (performAction ⟨"move", input⟩ (Except.error e1) sr).1.countP
          Event.isCameraCall = 1)
    ∧ (performAction ⟨"stop", input⟩ mr (Except.error e2)
        = ([Event.actionStart, Event.cameraStop, Event.logError,
            Event.setStatusError, Event.actionNotify], Outcome.resolved)
      ∧ (performAction ⟨"stop", input⟩ mr (Except.error e2)).1.count
          Event.actionNotify = 1
      ∧ (performAction ⟨"stop", input⟩ mr (Except.error e2)).1.countP
          Event.isCameraCall = 1) := by
  refine ⟨⟨rfl, ?_, ?_⟩, ⟨?_, ?_, ?_⟩⟩ <;>
    cases mr <;> rfl

/-- C10: whatever the action and however the delegated promises
settle, the promise `performAction` returns resolves — catch handlers
absorb every delegated rejection and the default branch returns an
already-resolved promise. -/
theorem perform_action_always_resolves (a : Action)
    (mr sr : Except String Unit) :
    (performAction a mr sr).2 = Outcome.resolved := by
  by_cases h1 : a.name = "move" <;> by_cases h2 : a.name = "stop" <;>
    cases mr <;> cases sr <;> simp [performAction, h1, h2]

/-- C7: on the worked-example profile, construction registers
`videoEncoding = "H264"`, `videoResolution = "1920x1080"` (the
`{width}x{height}` string), `videoBitRate = 4096`,
`videoFrameRate = 30` and `videoQuality = 5` (string fields parsed as
base-10 integers, `"5.0"` stopping at the dot). -/
theorem video_profile_example :
    ((buildProperties exampleProfile).lookup "videoEncoding").map
        OnvifProperty.value = some (JSValue.str "H264")
    ∧ ((buildProperties exampleProfile).lookup "videoResolution").map
        OnvifProperty.value = some (JSValue.str "1920x1080")
    ∧ ((buildProperties exampleProfile).lookup "videoBitRate").map
        OnvifProperty.value = some (JSValue.num 4096)
    ∧ ((buildProperties exampleProfile).lookup "videoFrameRate").map
        OnvifProperty.value = some (JSValue.num 30)
    ∧ ((buildProperties exampleProfile).lookup "videoQuality").map
        OnvifProperty.value = some (JSValue.num 5) := by
  decide

/-- Counterexample for C8: `performAction` does not reject
out-of-range inputs — a `move` whose `speedX = 2` (outside
`[-1.0, 1.0]`) and whose `timeout = -3` (negative) is delegated to
`camera.ptz.continuousMove` unchanged, and the action even finishes
normally. -/
theorem move_out_of_range_reaches_camera :
    (1 : Rat) < 2 ∧ (-3 : Rat) < 0
    ∧ Event.cameraContinuousMove 2 0 0 (some (-3)) ∈
        (performAction ⟨"move", ⟨2, 0, 0, some (-3)⟩⟩ (Except.ok ())
          (Except.ok ())).1 := by
  refine ⟨by norm_num, by norm_num, ?_⟩
  simp [performAction]

/-- C8 amended: the `[-1.0, 1.0]` speed bounds and the non-negative
timeout are declared in the `move` action's registered input schema
(whose enforcement is the host runtime's job), while `performAction`
itself performs no validation and always delegates the input's speeds
and timeout verbatim as the camera call's arguments. -/
theorem move_schema_declares_bounds_dispatch_does_not_check :
    (moveActionSchema.speedX.minimum = some (-1)
      ∧ moveActionSchema.speedX.maximum = some 1)
    ∧ (moveActionSchema.speedY.minimum = some (-1)
      ∧ moveActionSchema.speedY.maximum = some 1)
    ∧ (moveActionSchema.speedZ.minimum = some (-1)
      ∧ moveActionSchema.speedZ.maximum = some 1)
    ∧ moveActionSchema.timeout.minimum = some 0
    ∧ moveActionSchema.required = ["speedX", "speedY", "speedZ"]
    ∧ ∀ (input : MoveInput) (mr sr : Except String Unit),
        ((performAction ⟨"move", input⟩ mr sr).1).get? 1
          = some (Event.cameraContinuousMove input.speedX input.speedY
              input.speedZ input.timeout) := by
  refine ⟨⟨rfl, rfl⟩, ⟨rfl, rfl⟩, ⟨rfl, rfl⟩, rfl, rfl, ?_⟩
  intro input mr sr
  cases mr <;> rfl

end OnvifAdapter
